import Mathlib

/-!
Verification of the Peekaboo pre-execution policy gate and its build/test
harness script (`test-formatter-output.py`).

The policy gate (envelope reader + policy evaluator) is modelled from the
specification, since its source is not part of the checked-in sources; the
harness functions `run_agent_command` and `wait_for_build` are embedded
directly from `test-formatter-output.py`.
-/

namespace Peekaboo

/-! ## Character-list string machinery -/

/-- Boolean prefix test on character lists. -/
def startsWithList : List Char → List Char → Bool
  | [], _ => true
  | _ :: _, [] => false
  | a :: as, b :: bs => a == b && startsWithList as bs

/-- Does some suffix of `l` satisfy `p`? (Scans every position.) -/
def anySuffix (p : List Char → Bool) : List Char → Bool
  | [] => p []
  | c :: rest => p (c :: rest) || anySuffix p rest

/-- `containsStr s pat`: does `pat` occur as a contiguous substring of `s`? -/
def containsStr (s pat : String) : Bool :=
  anySuffix (startsWithList pat.data) s.data

/-! ## Policy gate data model (modelled from the spec) -/

/-- Modelled from the spec: the verdict type of the policy evaluator.
`block` carries the structured diagnostic (rule reason, attempted command
verbatim, remediation hint); `allow` carries nothing. -/
inductive Verdict where
  | allow : Verdict
  | block (reason attempted hint : String) : Verdict
deriving DecidableEq

/-- Modelled from the spec: exit status of the gate process, `0` = Allow,
`2` = Block. -/
def exitCode : Verdict → Nat
  | .allow => 0
  | .block _ _ _ => 2

/-- Is the verdict a Block? -/
def isBlock : Verdict → Bool
  | .allow => false
  | .block _ _ _ => true

/-- Modelled from the spec: the diagnostic lines written to the error
stream: a `BLOCKED: <reason>` line, an `Attempted: <command>` line and a
remediation hint on Block; nothing on Allow. -/
def stderrLines : Verdict → List String
  | .allow => []
  | .block reason attempted hint =>
      ["BLOCKED: " ++ reason, "Attempted: " ++ attempted, hint]

/-- Modelled from the spec: result of the environment probe (existence
check of the wrapper entry point); a failed probe is a distinct outcome. -/
inductive ProbeResult where
  | ok (present : Bool) : ProbeResult
  | err : ProbeResult
deriving DecidableEq

/-- Modelled from the spec: a failed/ambiguous probe is treated as
"wrapper absent". -/
def probePresent : ProbeResult → Bool
  | .ok b => b
  | .err => false

/-! ## Rule 1: universal destructive-operation block -/

/-- Strip a required leading token, returning the remainder. -/
def stripTok (tok l : List Char) : Option (List Char) :=
  if startsWithList tok l then some (l.drop tok.length) else none

/-- Require at least one whitespace character, then skip the whole run. -/
def dropWsStrict : List Char → Option (List Char)
  | [] => none
  | c :: r => if c.isWhitespace then some (r.dropWhile Char.isWhitespace) else none

/-- Modelled from the spec: does the token sequence
`git` ⟨ws⟩ `reset` ⟨ws⟩ `--hard` (flexible whitespace runs between the
tokens) start at the head of `l`? -/
def rule1At (l : List Char) : Bool :=
  match stripTok "git".data l with
  | none => false
  | some r1 =>
    match dropWsStrict r1 with
    | none => false
    | some r2 =>
      match stripTok "reset".data r2 with
      | none => false
      | some r3 =>
        match dropWsStrict r3 with
        | none => false
        | some r4 => startsWithList "--hard".data r4

/-- Modelled from the spec: Rule 1 predicate — the destructive pattern
occurs anywhere in the candidate command. -/
def rule1Matches (cmd : String) : Bool :=
  anySuffix rule1At cmd.data

/-! ## Rule 2: wrapper enforcement -/

/-- Does the character list start with the word `git` followed by a
whitespace character? -/
def gitTokenAt : List Char → Bool
  | 'g' :: 'i' :: 't' :: c :: _ => c.isWhitespace
  | _ => false

/-- Modelled from the spec: the candidate command contains a
git-invocation token (the word `git` followed by whitespace). -/
def hasGitToken (cmd : String) : Bool :=
  anySuffix gitTokenAt cmd.data

/-- Modelled from the spec: the project-designated wrapper entry point. -/
def wrapperName : String := "./runner"

/-- Modelled from the spec: the command already contains the
wrapper-prefixed git form `./runner git`. -/
def wrapperForm (cmd : String) : Bool :=
  containsStr cmd (wrapperName ++ " git")

/-! ## The evaluator: ordered rule list with first-match semantics -/

/-- Modelled from the spec: a rule is a predicate over (command,
wrapper-present) together with the diagnostic pieces used on match. -/
structure Rule where
  reason : String
  hint : String
  pred : String → Bool → Bool

/-- Modelled from the spec: Rule 1, the universal destructive-operation
block — unconditional, ignores the probe. -/
def rule1 : Rule where
  reason := "universal destructive-operation block (git reset --hard)"
  hint := "Only a human operator may run git reset --hard directly."
  pred := fun cmd _ => rule1Matches cmd

/-- Modelled from the spec: Rule 2, wrapper enforcement — active only when
the wrapper entry point is present; matches direct git invocations not
already routed through the wrapper. -/
def rule2 : Rule where
  reason := "direct git invocation while the project wrapper exists"
  hint := "Use ./runner git <subcommand> instead."
  pred := fun cmd present => present && hasGitToken cmd && !wrapperForm cmd

/-- Modelled from the spec: the fixed, totally ordered rule list; Rule 1
before Rule 2. -/
def rules : List Rule := [rule1, rule2]

/-- First-match evaluation over an ordered rule list, defaulting to
Allow. -/
def firstMatch : List Rule → String → Bool → Verdict
  | [], _, _ => .allow
  | r :: rs, cmd, present =>
      if r.pred cmd present then .block r.reason cmd r.hint
      else firstMatch rs cmd present

/-- Modelled from the spec: the policy evaluator — a pure function of the
candidate command and the wrapper-presence boolean. -/
def evaluate (cmd : String) (present : Bool) : Verdict :=
  firstMatch rules cmd present

/-! ## Envelope reader (modelled from the spec) -/

/-- Modelled from the spec: a minimal structured-data (JSON-like) value
for the invocation envelope. -/
inductive JValue where
  | null : JValue
  | bool (b : Bool) : JValue
  | num (n : Int) : JValue
  | str (s : String) : JValue
  | arr (elems : List JValue) : JValue
  | obj (fields : List (String × JValue)) : JValue

/-- Object field lookup; `none` on non-objects or missing keys. -/
def getField : JValue → String → Option JValue
  | .obj fields, k => (fields.find? (fun p => p.1 == k)).map (·.2)
  | _, _ => none

/-- Modelled from the spec: extract the string at `tool_input.command`;
`none` when the input is unparseable (`Option.none` envelope) or any part
of the path is missing or of the wrong type. -/
def extractCommand (env : Option JValue) : Option String :=
  match env with
  | none => none
  | some j =>
    match (getField j "tool_input").bind (fun ti => getField ti "command") with
    | some (.str s) => some s
    | _ => none

/-- Modelled from the spec: the candidate command, empty string when
extraction fails (fail-open envelope reader). -/
def readCommand (env : Option JValue) : String :=
  (extractCommand env).getD ""

/-- Modelled from the spec: one full invocation of the gate: envelope
reader, probe interpretation, policy evaluation. -/
def gate (env : Option JValue) (probe : ProbeResult) : Verdict :=
  evaluate (readCommand env) (probePresent probe)

/-- Modelled from the spec: the process exit status of one invocation. -/
def gateExit (env : Option JValue) (probe : ProbeResult) : Nat :=
  exitCode (gate env probe)

/-! ## Harness script `test-formatter-output.py` -/

/-- Outcome of the `subprocess.run` call inside `run_agent_command`:
normal completion (with return code, stdout, stderr), a
`TimeoutExpired`, or any other exception. -/
inductive SubprocResult where
  | completed (returncode : Int) (stdout stderr : String) : SubprocResult
  | timeout : SubprocResult
  | exn (msg : String) : SubprocResult

/-- Timeout (seconds) passed to `subprocess.run` in `run_agent_command`. -/
def agentTimeoutSeconds : Nat := 30

/-- Command line built by `run_agent_command`. -/
def agentCmd (task : String) (max_steps : Nat) : List String :=
  ["./peekaboo", "agent", task, "--max-steps", toString max_steps]

/-- `run_agent_command` from `test-formatter-output.py`: returns whether
the subprocess exited with return code 0; a timeout or any exception is
caught and yields `false`. -/
def run_agent_command (task : String) (max_steps : Nat)
    (outcome : SubprocResult) : Bool :=
  match task, max_steps, outcome with
  | _, _, .completed rc _ _ => rc == 0
  | _, _, .timeout => false
  | _, _, .exn _ => false

/-- Outcome of one `npm run poltergeist:status` poll inside
`wait_for_build`: captured stdout, or an exception. -/
inductive PollResult where
  | ok (stdout : String) : PollResult
  | exn (msg : String) : PollResult

/-- Success marker searched in the poll stdout. -/
def successMarker : String := "✅ Success"

/-- Failure marker searched in the poll stdout. -/
def failedMarker : String := "❌ Failed"

/-- Target marker searched in the poll stdout alongside the failure
marker. -/
def targetMarker : String := "Target: peekaboo"

/-- One iteration of the `wait_for_build` loop body: `some b` means the
function returns `b` now, `none` means it sleeps and polls again. An
exception anywhere in the body returns `False`. -/
def pollVerdict : PollResult → Option Bool
  | .exn _ => some false
  | .ok out =>
    if containsStr out successMarker then some true
    else if containsStr out failedMarker && containsStr out targetMarker then
      some false
    else none

/-- `max_wait` from `wait_for_build`: at most 60 polls. -/
def max_wait : Nat := 60

/-- The `for i in range(max_wait)` loop of `wait_for_build`: `i` is the
current poll index, the second argument the remaining iterations; falling
off the loop returns `true` ("Build timeout - proceeding anyway"). -/
def waitLoop (polls : Nat → PollResult) : Nat → Nat → Bool
  | _, 0 => true
  | i, fuel + 1 =>
    match pollVerdict (polls i) with
    | some b => b
    | none => waitLoop polls (i + 1) fuel

/-- `wait_for_build` from `test-formatter-output.py`, with the sequence of
poll outcomes as input. -/
def wait_for_build (polls : Nat → PollResult) : Bool :=
  waitLoop polls 0 max_wait

/-! ## Helper lemmas -/

theorem startsWithList_iff (p : List Char) : ∀ l, startsWithList p l = true ↔ p <+: l := by
  induction p with
  | nil => intro l; simp [startsWithList]
  | cons a as ih =>
    intro l
    cases l with
    | nil => simp [startsWithList]
    | cons b bs =>
      simp [startsWithList, Bool.and_eq_true, beq_iff_eq, ih, List.cons_prefix_cons]

theorem anySuffix_of_self {p : List Char → Bool} {l : List Char}
    (h : p l = true) : anySuffix p l = true := by
  cases l with
  | nil => simpa [anySuffix] using h
  | cons c rest => simp [anySuffix, h]

theorem anySuffix_mono {p q : List Char → Bool}
    (hpq : ∀ t, p t = true → q t = true) :
    ∀ l, anySuffix p l = true → anySuffix q l = true := by
  intro l
  induction l with
  | nil => intro h; simpa [anySuffix] using hpq [] (by simpa [anySuffix] using h)
  | cons c rest ih =>
    intro h
    rcases (by simpa [anySuffix, Bool.or_eq_true] using h :
        p (c :: rest) = true ∨ anySuffix p rest = true) with h1 | h2
    · simp [anySuffix, hpq _ h1]
    · simp [anySuffix, ih h2]

theorem gitTokenAt_of_rule1At {l : List Char} (h : rule1At l = true) :
    gitTokenAt l = true := by
  unfold rule1At at h
  split at h
  · cases h
  · rename_i r1 hs
    split at h
    · cases h
    · rename_i r2 hd
      have hp : startsWithList "git".data l = true := by
        by_contra hcon
        simp [stripTok, hcon] at hs
      obtain ⟨rest, hrest⟩ := (startsWithList_iff _ _).1 hp
      have hl : l = 'g' :: 'i' :: 't' :: rest := by rw [← hrest]; rfl
      subst hl
      have hr1 : rest = r1 := by
        simpa [stripTok, hp] using hs
      subst hr1
      cases rest with
      | nil => cases hd
      | cons c r =>
        have hw : c.isWhitespace = true := by
          by_contra hcon
          simp [dropWsStrict, hcon] at hd
        simp [gitTokenAt, hw]

theorem hasGitToken_of_rule1Matches {cmd : String}
    (h : rule1Matches cmd = true) : hasGitToken cmd = true :=
  anySuffix_mono (fun _ ht => gitTokenAt_of_rule1At ht) cmd.data h

theorem evaluate_def (cmd : String) (present : Bool) :
    evaluate cmd present =
      if rule1Matches cmd then Verdict.block rule1.reason cmd rule1.hint
      else if present && hasGitToken cmd && !wrapperForm cmd then
        Verdict.block rule2.reason cmd rule2.hint
      else Verdict.allow := by
  simp only [evaluate, rules, firstMatch, rule1, rule2]

theorem evaluate_empty (present : Bool) : evaluate "" present = Verdict.allow := by
  cases present <;> decide

theorem exitCode_cases (v : Verdict) : exitCode v = 0 ∨ exitCode v = 2 := by
  cases v <;> simp [exitCode]

theorem wrapperForm_wrapped (sub : String) :
    wrapperForm ("./runner git " ++ sub) = true := by
  apply anySuffix_of_self
  rw [String.data_append]
  refine (startsWithList_iff _ _).2 ?_
  have h1 : ("./runner" ++ " git").data <+: "./runner git ".data := by decide
  exact h1.trans (List.prefix_append _ _)

theorem gate_of_extract_none {env : Option JValue} (probe : ProbeResult)
    (h : extractCommand env = none) : gate env probe = Verdict.allow := by
  unfold gate readCommand
  rw [h]
  exact evaluate_empty _

theorem waitLoop_of_all_none (polls : Nat → PollResult) :
    ∀ fuel i, (∀ j, j < fuel → pollVerdict (polls (i + j)) = none) →
      waitLoop polls i fuel = true := by
  intro fuel
  induction fuel with
  | zero => intro i _; rfl
  | succ n ih =>
    intro i h
    have h0 : pollVerdict (polls i) = none := by
      simpa using h 0 (Nat.succ_pos n)
    unfold waitLoop
    rw [h0]
    refine ih (i + 1) (fun j hj => ?_)
    have heq : i + 1 + j = i + (j + 1) := by omega
    rw [heq]
    exact h (j + 1) (by omega)

theorem waitLoop_first_decides (polls : Nat → PollResult) :
    ∀ fuel i k b, k < fuel →
      (∀ j, j < k → pollVerdict (polls (i + j)) = none) →
      pollVerdict (polls (i + k)) = some b →
      waitLoop polls i fuel = b := by
  intro fuel
  induction fuel with
  | zero => intro i k b hk; exact absurd hk (Nat.not_lt_zero k)
  | succ n ih =>
    intro i k b hk hnone hsome
    cases k with
    | zero =>
      unfold waitLoop
      rw [show i + 0 = i from rfl] at hsome
      rw [hsome]
    | succ m =>
      have h0 : pollVerdict (polls i) = none := by
        simpa using hnone 0 (Nat.succ_pos m)
      unfold waitLoop
      rw [h0]
      refine ih (i + 1) m b (by omega) (fun j hj => ?_) ?_
      · have heq : i + 1 + j = i + (j + 1) := by omega
        rw [heq]
        exact hnone (j + 1) (by omega)
      · have heq : i + 1 + m = i + (m + 1) := by omega
        rw [heq]
        exact hsome

theorem waitLoop_congr (polls1 polls2 : Nat → PollResult) :
    ∀ fuel i, (∀ j, j < fuel → polls1 (i + j) = polls2 (i + j)) →
      waitLoop polls1 i fuel = waitLoop polls2 i fuel := by
  intro fuel
  induction fuel with
  | zero => intro i _; rfl
  | succ n ih =>
    intro i h
    have h0 : polls1 i = polls2 i := by simpa using h 0 (Nat.succ_pos n)
    unfold waitLoop
    rw [h0]
    cases pollVerdict (polls2 i) with
    | some b => rfl
    | none =>
      refine ih (i + 1) (fun j hj => ?_)
      have heq : i + 1 + j = i + (j + 1) := by omega
      rw [heq]
      exact h (j + 1) (by omega)

/-! ## Claim theorems -/

/-- C1: every candidate command containing the token sequence `git reset`
followed by `--hard` (whitespace runs between the tokens, anywhere in the
string, as captured by `rule1Matches`) is blocked with exit code 2, for
both values of the wrapper-presence probe; the wrapper exemption cannot
bypass the universal rule. -/
theorem C1_destructive_always_blocked (cmd : String) (present : Bool)
    (h : rule1Matches cmd = true) :
    evaluate cmd present = Verdict.block rule1.reason cmd rule1.hint ∧
    exitCode (evaluate cmd present) = 2 := by
  rw [evaluate_def, if_pos h]
  exact ⟨rfl, rfl⟩

/-- Witness for C1 at a concrete destructive command, under both probe
values. -/
theorem C1_destructive_always_blocked_witness :
    rule1Matches "git reset --hard HEAD~1" = true ∧
    exitCode (evaluate "git reset --hard HEAD~1" true) = 2 ∧
    exitCode (evaluate "git reset --hard HEAD~1" false) = 2 :=
  ⟨by decide, (C1_destructive_always_blocked _ true (by decide)).2,
    (C1_destructive_always_blocked _ false (by decide)).2⟩

/-- C2: when the wrapper is present, every command containing a
git-invocation token but not the wrapper-prefixed git form is blocked with
exit code 2. -/
theorem C2_direct_git_blocked_when_wrapper_present (cmd : String)
    (hgit : hasGitToken cmd = true) (hw : wrapperForm cmd = false) :
    isBlock (evaluate cmd true) = true ∧ exitCode (evaluate cmd true) = 2 := by
  rw [evaluate_def]
  cases h1 : rule1Matches cmd <;> simp [h1, hgit, hw, isBlock, exitCode]

/-- Witness for C2 at `git status` with wrapper present. -/
theorem C2_direct_git_blocked_when_wrapper_present_witness :
    hasGitToken "git status" = true ∧ wrapperForm "git status" = false ∧
    exitCode (evaluate "git status" true) = 2 :=
  ⟨by decide, by decide,
    (C2_direct_git_blocked_when_wrapper_present "git status"
      (by decide) (by decide)).2⟩

/-- C3: a wrapper-prefixed command `./runner git <subcommand>` with the
wrapper present is allowed with exit code 0, unless it also matches the
universal destructive rule, in which case that rule fires first and the
verdict is Block with the universal rule's diagnostic. -/
theorem C3_wrapped_git_allowed_unless_destructive (sub : String) :
    (rule1Matches ("./runner git " ++ sub) = false →
      evaluate ("./runner git " ++ sub) true = Verdict.allow ∧
      exitCode (evaluate ("./runner git " ++ sub) true) = 0) ∧
    (rule1Matches ("./runner git " ++ sub) = true →
      evaluate ("./runner git " ++ sub) true =
        Verdict.block rule1.reason ("./runner git " ++ sub) rule1.hint ∧
      exitCode (evaluate ("./runner git " ++ sub) true) = 2) := by
  have hwf := wrapperForm_wrapped sub
  constructor
  · intro h1
    rw [evaluate_def]
    simp [h1, hwf, exitCode]
  · intro h1
    rw [evaluate_def]
    simp [h1, exitCode]

/-- Witness for C3: a benign wrapped subcommand is allowed, a destructive
wrapped one is blocked. -/
theorem C3_wrapped_git_allowed_unless_destructive_witness :
    evaluate ("./runner git " ++ "status") true = Verdict.allow ∧
    exitCode (evaluate ("./runner git " ++ "reset --hard") true) = 2 :=
  ⟨((C3_wrapped_git_allowed_unless_destructive "status").1 (by decide)).1,
    ((C3_wrapped_git_allowed_unless_destructive "reset --hard").2
      (by decide)).2⟩

/-- C4: with the wrapper absent, a command containing a git-invocation
token but not matching the universal destructive rule is allowed with
exit code 0 (the wrapper-enforcement rule never matches without the
wrapper). -/
theorem C4_wrapper_absent_allows_nondestructive_git (cmd : String)
    (_hgit : hasGitToken cmd = true) (h1 : rule1Matches cmd = false) :
    evaluate cmd false = Verdict.allow ∧
    exitCode (evaluate cmd false) = 0 := by
  rw [evaluate_def]
  simp [h1, exitCode]

/-- Witness for C4 at `git status` with wrapper absent. -/
theorem C4_wrapper_absent_allows_nondestructive_git_witness :
    evaluate "git status" false = Verdict.allow :=
  (C4_wrapper_absent_allows_nondestructive_git "git status"
    (by decide) (by decide)).1

/-- C5: a command with no git-invocation token is allowed with exit code 0
and an empty diagnostic, for both values of the wrapper-presence probe
(default verdict when no rule matches). -/
theorem C5_no_git_token_allows (cmd : String) (present : Bool)
    (h : hasGitToken cmd = false) :
    evaluate cmd present = Verdict.allow ∧
    exitCode (evaluate cmd present) = 0 ∧
    stderrLines (evaluate cmd present) = [] := by
  have h1 : rule1Matches cmd = false := by
    cases hr : rule1Matches cmd
    · rfl
    · exact absurd (hasGitToken_of_rule1Matches hr) (by simp [h])
  rw [evaluate_def]
  simp [h1, h, exitCode, stderrLines]

/-- Witness for C5 at `ls -la`, under both probe values. -/
theorem C5_no_git_token_allows_witness :
    evaluate "ls -la" true = Verdict.allow ∧
    evaluate "ls -la" false = Verdict.allow :=
  ⟨(C5_no_git_token_allows "ls -la" true (by decide)).1,
    (C5_no_git_token_allows "ls -la" false (by decide)).1⟩

/-- C6: whenever command extraction fails (input unparseable, or any part
of the `tool_input.command` path missing or of the wrong type), the gate
fails open: verdict Allow, exit code 0, for any probe outcome. The
envelope reader is a total function, so it cannot raise. -/
theorem C6_malformed_envelope_fails_open (env : Option JValue)
    (probe : ProbeResult) (h : extractCommand env = none) :
    gate env probe = Verdict.allow ∧ gateExit env probe = 0 := by
  have hg := gate_of_extract_none probe h
  refine ⟨hg, ?_⟩
  show exitCode (gate env probe) = 0
  rw [hg]
  rfl

/-- Witness for C6 at an envelope lacking `tool_input`, with a failed
probe. -/
theorem C6_malformed_envelope_fails_open_witness :
    gate (some (JValue.obj [])) ProbeResult.err = Verdict.allow ∧
    gateExit (some (JValue.obj [])) ProbeResult.err = 0 :=
  C6_malformed_envelope_fails_open (some (JValue.obj [])) ProbeResult.err rfl

/-- C7: a Block verdict always carries the attempted command verbatim and
the three diagnostic lines (`BLOCKED: <reason>`, `Attempted: <command>`,
remediation hint) with non-empty reason and hint; an Allow verdict writes
nothing to the diagnostic stream. -/
theorem C7_block_diagnostics (cmd : String) (present : Bool) :
    (evaluate cmd present = Verdict.allow →
      stderrLines (evaluate cmd present) = []) ∧
    (∀ r a h, evaluate cmd present = Verdict.block r a h →
      a = cmd ∧
      stderrLines (evaluate cmd present) =
        ["BLOCKED: " ++ r, "Attempted: " ++ cmd, h] ∧
      r ≠ "" ∧ h ≠ "") := by
  constructor
  · intro ha
    rw [ha]
    rfl
  · intro r a h heq
    have heq' := heq
    rw [evaluate_def] at heq'
    split at heq'
    · obtain ⟨hr, ha, hh⟩ := Verdict.block.inj heq'
      subst hr; subst hh; subst ha
      refine ⟨rfl, ?_, by decide, by decide⟩
      rw [heq]
      rfl
    · split at heq'
      · obtain ⟨hr, ha, hh⟩ := Verdict.block.inj heq'
        subst hr; subst hh; subst ha
        refine ⟨rfl, ?_, by decide, by decide⟩
        rw [heq]
        rfl
      · exact Verdict.noConfusion heq'

/-- Witness for C7 at a blocked direct git invocation. -/
theorem C7_block_diagnostics_witness :
    stderrLines (evaluate "git status" true) =
      ["BLOCKED: " ++ rule2.reason, "Attempted: " ++ "git status",
        rule2.hint] :=
  (((C7_block_diagnostics "git status" true).2 rule2.reason "git status"
    rule2.hint (by decide)).2).1

/-- C8 counterexample: a probe failure (an internal failure) does not
resolve to exit code 0 when the command matches the universal destructive
rule — the gate exits 2 there, refuting "every internal failure resolves
to exit code 0". -/
theorem C8_probe_error_can_still_block :
    gateExit (some (JValue.obj [("tool_input",
      JValue.obj [("command", JValue.str "git reset --hard")])]))
      ProbeResult.err = 2 := by
  decide

/-- C8 (amended): the exit status is always 0 or 2; a parse failure
resolves to exit code 0; a probe failure is treated as wrapper-absent
evaluation (Rule 2 inactive), which still yields exit 0 or 2. -/
theorem C8_exit_code_discipline (env : Option JValue) (probe : ProbeResult) :
    (gateExit env probe = 0 ∨ gateExit env probe = 2) ∧
    (extractCommand env = none → gateExit env probe = 0) ∧
    gate env ProbeResult.err = evaluate (readCommand env) false := by
  refine ⟨exitCode_cases _, fun h => ?_, rfl⟩
  have hg := gate_of_extract_none probe h
  show exitCode (gate env probe) = 0
  rw [hg]
  rfl

/-- Witness for C8 (amended) at an unparseable envelope. -/
theorem C8_exit_code_discipline_witness :
    gateExit none (ProbeResult.ok true) = 0 :=
  (C8_exit_code_discipline none (ProbeResult.ok true)).2.1 rfl

/-- C9: `run_agent_command` is total (never propagates an exception) and
returns `true` exactly when the subprocess completed with return code 0;
a timeout or any other exception yields `false`. -/
theorem C9_run_agent_command_result (task : String) (steps : Nat)
    (outcome : SubprocResult) :
    (run_agent_command task steps outcome = true ↔
      ∃ out err, outcome = SubprocResult.completed 0 out err) ∧
    run_agent_command task steps SubprocResult.timeout = false ∧
    (∀ m, run_agent_command task steps (SubprocResult.exn m) = false) := by
  refine ⟨?_, rfl, fun m => rfl⟩
  cases outcome with
  | completed rc out err => simp [run_agent_command]
  | timeout => simp [run_agent_command]
  | exn m => simp [run_agent_command]

/-- Witness for C9 at a successful and a timed-out invocation. -/
theorem C9_run_agent_command_result_witness :
    run_agent_command "Take a screenshot" 2
      (SubprocResult.completed 0 "out" "") = true ∧
    run_agent_command "Take a screenshot" 2 SubprocResult.timeout = false :=
  ⟨(C9_run_agent_command_result "Take a screenshot" 2 _).1.mpr
      ⟨"out", "", rfl⟩,
    (C9_run_agent_command_result "Take a screenshot" 2
      SubprocResult.timeout).2.1⟩

/-- C10: `wait_for_build` polls at most 60 times (its result depends only
on the first 60 poll outcomes) and always terminates with a boolean: it
returns the verdict of the first poll that decides (success marker gives
`true`; failure-plus-target markers, when the success marker is absent, or
an exception give `false`), and returns `true` when all 60 polls are
undecided. -/
theorem C10_wait_for_build_behavior (polls : Nat → PollResult) :
    ((∀ i, i < max_wait → pollVerdict (polls i) = none) →
      wait_for_build polls = true) ∧
    (∀ k b, k < max_wait →
      (∀ i, i < k → pollVerdict (polls i) = none) →
      pollVerdict (polls k) = some b →
      wait_for_build polls = b) ∧
    (∀ polls2, (∀ i, i < max_wait → polls i = polls2 i) →
      wait_for_build polls = wait_for_build polls2) ∧
    (∀ out, containsStr out successMarker = true →
      pollVerdict (PollResult.ok out) = some true) ∧
    (∀ out, containsStr out successMarker = false →
      containsStr out failedMarker = true →
      containsStr out targetMarker = true →
      pollVerdict (PollResult.ok out) = some false) ∧
    (∀ m, pollVerdict (PollResult.exn m) = some false) := by
  refine ⟨?_, ?_, ?_, ?_, ?_, fun m => rfl⟩
  · intro h
    exact waitLoop_of_all_none polls max_wait 0
      (fun j hj => by simpa using h j hj)
  · intro k b hk hnone hsome
    exact waitLoop_first_decides polls max_wait 0 k b hk
      (fun j hj => by simpa using hnone j hj) (by simpa using hsome)
  · intro polls2 h
    exact waitLoop_congr polls polls2 max_wait 0
      (fun j hj => by simpa using h j hj)
  · intro out h
    simp [pollVerdict, h]
  · intro out h1 h2 h3
    simp [pollVerdict, h1, h2, h3]

/-- Witness for C10: sixty undecided polls make `wait_for_build` proceed
with `true`. -/
theorem C10_wait_for_build_behavior_witness :
    wait_for_build (fun _ => PollResult.ok "Build running") = true :=
  (C10_wait_for_build_behavior _).1 (fun i _ => by decide)

end Peekaboo
